import Mathlib

/-! # Rollup transfer circuit (`Rollup.go`) and equation circuit (`Equation.go`)

A shallow embedding of the two gnark circuits of the repository.

* A `frontend.Variable` is a natural number; the circuit is compiled over the
  BN254 scalar field, so every arithmetic operation and every assertion reads
  its operands modulo `fieldModulus`.
* The `frontend.API` is the constraint accumulator: a list of constraints, to
  which every `Assert...` call (and every gadget call) appends.  The functions
  of the source that take `api` take the accumulator and return the new one.
* The gadgets of the gnark standard library (MiMC, EdDSA, the curve
  constructor) are outside the repository; their contracts are the fields of
  `Gadgets`.
-/

namespace Rollup

/-! ## The field and the external interfaces -/

/-- Order of the BN254 scalar field, `ecc.BN254.ScalarField()`. -/
def fieldModulus : Nat :=
  21888242871839275222246405745257275088548364400416034343698204186575808495617

/-- A `twistededwards.Point`: two field variables. -/
structure Point where
  X : Nat
  Y : Nat
deriving DecidableEq

/-- An `eddsa.PublicKey`. -/
structure PublicKey where
  A : Point
deriving DecidableEq

/-- An `eddsa.Signature`. -/
structure Signature where
  R : Point
  S : Nat
deriving DecidableEq

/-- A Go `error` value. -/
structure Error where
  code : Nat
deriving DecidableEq

/-- The handle returned by `twistededwards.NewEdCurve`. -/
structure Curve where
  id : Nat
deriving DecidableEq

/-- State of the `mimc.MiMC` hash gadget: the running state `h` and the
values written since the last `Sum`. -/
structure MiMC where
  h : Nat
  data : List Nat
deriving DecidableEq

/-- Modelled from the spec: the external gadgets of section 6, which the
repository imports from the gnark standard library. `compress` is one
absorption step of the hash gadget (state, value, new state); `eddsaHolds`
says whether the constraints that `eddsa.Verify` adds are satisfied;
`eddsaVerifyError` is the structural error `eddsa.Verify` returns;
`newEdCurve` and `newMiMCError` are the results of the two constructors. -/
structure Gadgets where
  compress : Nat → Nat → Nat
  eddsaHolds : Curve → Signature → Nat → PublicKey → MiMC → Bool
  eddsaVerifyError : Curve → Option Error
  newEdCurve : Curve × Option Error
  newMiMCError : Option Error

/-- One entry of the constraint accumulator. -/
inductive Constraint where
  | isEqual (a b : Nat)
  | isLessOrEqual (v bound : Nat)
  | eddsaVerify (curve : Curve) (sig : Signature) (msg : Nat) (pubKey : PublicKey) (hash : MiMC)
deriving DecidableEq

/-- The constraint accumulator behind `frontend.API`. -/
structure API where
  constraints : List Constraint
deriving DecidableEq

/-- Field addition `api.Add`. -/
def API.Add (_api : API) (a b : Nat) : Nat :=
  (a + b) % fieldModulus

/-- Field subtraction `api.Sub`. -/
def API.Sub (_api : API) (a b : Nat) : Nat :=
  (a % fieldModulus + (fieldModulus - b % fieldModulus)) % fieldModulus

/-- Field multiplication `api.Mul`. -/
def API.Mul (_api : API) (a b : Nat) : Nat :=
  (a * b) % fieldModulus

/-- The call `api.AssertIsEqual(a, b)`. -/
def API.AssertIsEqual (api : API) (a b : Nat) : API :=
  { constraints := api.constraints ++ [Constraint.isEqual a b] }

/-- The call `api.AssertIsLessOrEqual(v, bound)`. -/
def API.AssertIsLessOrEqual (api : API) (v bound : Nat) : API :=
  { constraints := api.constraints ++ [Constraint.isLessOrEqual v bound] }

/-- Modelled from the spec: the constraint accumulator of section 6
(`equal(a, b)`, `less_or_equal(a, b)` over the fixed prime field) and the
signature gadget. A constraint holds on the canonical representatives in
`[0, fieldModulus)` of its operands. -/
def Constraint.holds (g : Gadgets) : Constraint → Bool
  | Constraint.isEqual a b => decide (a % fieldModulus = b % fieldModulus)
  | Constraint.isLessOrEqual v bound => decide (v % fieldModulus ≤ bound % fieldModulus)
  | Constraint.eddsaVerify curve sig msg pubKey hash => g.eddsaHolds curve sig msg pubKey hash

/-- Every constraint of the accumulator holds. -/
def API.satisfied (g : Gadgets) (api : API) : Bool :=
  api.constraints.all (Constraint.holds g)

/-- The hash gadget's `Reset`. -/
def MiMC.Reset (_m : MiMC) : MiMC :=
  { h := 0, data := [] }

/-- The hash gadget's `Write`. -/
def MiMC.Write (m : MiMC) (values : List Nat) : MiMC :=
  { m with data := m.data ++ values }

/-- The hash gadget's `Sum`: absorbs the written values into `h`, flushes
them, and returns `h`. -/
def MiMC.Sum (g : Gadgets) (m : MiMC) : Nat × MiMC :=
  let d := m.data.foldl g.compress m.h
  (d, { h := d, data := [] })

/-- The constructor `mimc.NewMiMC`. -/
def NewMiMC (g : Gadgets) : MiMC × Option Error :=
  ({ h := 0, data := [] }, g.newMiMCError)

/-- The call `eddsa.Verify(curve, sig, msg, pubKey, &hFunc)`: one gadget
constraint, and the gadget's error. -/
def eddsaVerify (g : Gadgets) (api : API) (curve : Curve) (sig : Signature) (msg : Nat)
    (pubKey : PublicKey) (hFunc : MiMC) : Option Error × API :=
  (g.eddsaVerifyError curve,
    { constraints := api.constraints ++ [Constraint.eddsaVerify curve sig msg pubKey hFunc] })

/-- The digest of a list of values by a freshly reset hash gadget. -/
def Hash (g : Gadgets) (values : List Nat) : Nat :=
  values.foldl g.compress 0

/-! ## `Rollup.go` -/

/-- The struct `Account`. -/
structure Account where
  Nonce : Nat
  Balance : Nat
  Index : Nat
  PubKey : PublicKey
deriving DecidableEq

/-- The struct `Transfer`. -/
structure Transfer where
  Amount : Nat
  Nonce : Nat
  SenderPubKey : PublicKey
  ReceiverPubKey : PublicKey
  Signature : Signature
deriving DecidableEq

/-- A `merkle.MerkleProof`. -/
structure MerkleProof where
  RootHash : Nat
  Path : List Nat
deriving DecidableEq

/-- The struct `Circuit`. -/
structure Circuit where
  SenderAccountBefore : Account
  ReceiverAccountBefore : Account
  SenderAccountAfter : Account
  ReceiverAccountAfter : Account
  Transfer : Transfer
  MerkleProofReceiverBefore : MerkleProof
  MerkleProofReceiverAfter : MerkleProof
  MerkleProofSenderBefore : MerkleProof
  MerkleProofSenderAfter : MerkleProof
  IndexReceiver : Nat
  IndexSender : Nat
  RootHashBefore : Nat
  RootHashAfter : Nat
deriving DecidableEq

/-- The function `verifyUpdated`. -/
def verifyUpdated (api : API) (from_ to_ fromUpdated toUpdated : Account) (amount : Nat) : API :=
  let nonceUpdated := api.Add from_.Nonce 1
  let api := api.AssertIsEqual nonceUpdated fromUpdated.Nonce
  let api := api.AssertIsLessOrEqual amount from_.Balance
  let newFromBalanced := api.Sub from_.Balance amount
  let api := api.AssertIsEqual newFromBalanced fromUpdated.Balance
  let newToBalanced := api.Add to_.Balance amount
  let api := api.AssertIsEqual newToBalanced toUpdated.Balance
  let api := api.AssertIsEqual from_.PubKey.A.X fromUpdated.PubKey.A.X
  let api := api.AssertIsEqual from_.PubKey.A.Y fromUpdated.PubKey.A.Y
  let api := api.AssertIsEqual to_.PubKey.A.X toUpdated.PubKey.A.X
  let api := api.AssertIsEqual to_.PubKey.A.Y toUpdated.PubKey.A.Y
  api

/-- The function `verifySignature`. -/
def verifySignature (g : Gadgets) (api : API) (t : Transfer) (hFunc : MiMC) : Option Error × API :=
  let hFunc := hFunc.Reset
  let hFunc := hFunc.Write [t.Nonce, t.Amount, t.SenderPubKey.A.X, t.SenderPubKey.A.Y,
    t.ReceiverPubKey.A.X, t.ReceiverPubKey.A.Y]
  let (hTransfer, hFunc) := hFunc.Sum g
  let (curve, _) := g.newEdCurve
  let (err, api) := eddsaVerify g api curve t.Signature hTransfer t.SenderPubKey hFunc
  match err with
  | some e => (some e, api)
  | none => (none, api)

/-- The method `Circuit.Define`; the four root assertions and the four
`VerifyProof` calls are commented out in the source. -/
def Define (g : Gadgets) (api : API) (circuit : Circuit) : Option Error × API :=
  let api := verifyUpdated api circuit.SenderAccountBefore circuit.ReceiverAccountBefore
    circuit.SenderAccountAfter circuit.ReceiverAccountAfter circuit.Transfer.Amount
  let (hFunc, _) := NewMiMC g
  let (err, api) := verifySignature g api circuit.Transfer hFunc
  match err with
  | some e => (some e, api)
  | none => (none, api)

/-! ## The Merkle gadget and concrete witnesses -/

/-- Modelled from the spec: one level of the Merkle gadget of section 4.3; the
index bit selects the left/right order in which the running hash and the path
element are combined. -/
def merkleFold (g : Gadgets) : List Nat → Nat → Nat → Nat
  | [], _, sum => sum
  | s :: rest, index, sum =>
    merkleFold g rest (index / 2) (if index % 2 = 1 then Hash g [s, sum] else Hash g [sum, s])

/-- Modelled from the spec: the Merkle gadget of sections 4.3 and 6,
`(leaf, path, index) -> recomputed_root`, which `Define` would reach through
the four commented-out `VerifyProof` calls. The first element of `Path` is the
leaf; the index is read in the field and has one bit per level. -/
def merkleRecompute (g : Gadgets) (path : List Nat) (index : Nat) : Option Nat :=
  match path with
  | [] => none
  | leaf :: siblings =>
    if index % fieldModulus < 2 ^ siblings.length then
      some (merkleFold g siblings (index % fieldModulus) (Hash g [leaf]))
    else none

/-- Modelled from the spec: a Merkle proof reduces to its claimed root at the
given index (section 3, invariant 7). -/
def MerkleProof.reducesToRoot (g : Gadgets) (mp : MerkleProof) (index : Nat) : Bool :=
  match merkleRecompute g mp.Path index with
  | some root => decide (root % fieldModulus = mp.RootHash % fieldModulus)
  | none => false

/-- A small instance of the gadget contracts on which the circuit can be
evaluated: the absorption step is `31 * h + x`, a signature is accepted when
its `S` is the sum of the message and the two coordinates of the key it is
verified under, and no constructor or gadget reports an error. -/
def toyGadgets : Gadgets where
  compress := fun h x => (31 * h + x) % fieldModulus
  eddsaHolds := fun _ sig msg pubKey _ =>
    decide (sig.S % fieldModulus = (msg + pubKey.A.X + pubKey.A.Y) % fieldModulus)
  eddsaVerifyError := fun _ => none
  newEdCurve := (Curve.mk 0, none)
  newMiMCError := none

/-- The signature `toyGadgets` accepts for a transfer under the transfer's
own sender key. -/
def toySign (t : Transfer) : Transfer :=
  { t with Signature :=
      { R := Point.mk 0 0,
        S := (Hash toyGadgets [t.Nonce, t.Amount, t.SenderPubKey.A.X, t.SenderPubKey.A.Y,
          t.ReceiverPubKey.A.X, t.ReceiverPubKey.A.Y]
            + t.SenderPubKey.A.X + t.SenderPubKey.A.Y) % fieldModulus } }

/-- The assignment built in `Rollup()` (source lines 117 to 195); the empty
`eddsa.Signature{}` is read as zeros. -/
def rollupAssignment : Circuit where
  SenderAccountBefore := { Nonce := 1, Balance := 100, Index := 0, PubKey := ⟨⟨1, 2⟩⟩ }
  ReceiverAccountBefore := { Nonce := 0, Balance := 50, Index := 1, PubKey := ⟨⟨3, 4⟩⟩ }
  SenderAccountAfter := { Nonce := 2, Balance := 70, Index := 0, PubKey := ⟨⟨1, 2⟩⟩ }
  ReceiverAccountAfter := { Nonce := 0, Balance := 80, Index := 1, PubKey := ⟨⟨3, 4⟩⟩ }
  Transfer :=
    { Amount := 30, Nonce := 1, SenderPubKey := ⟨⟨1, 2⟩⟩, ReceiverPubKey := ⟨⟨3, 4⟩⟩,
      Signature := ⟨⟨0, 0⟩, 0⟩ }
  MerkleProofReceiverBefore := { Path := [5, 6], RootHash := 123456 }
  MerkleProofReceiverAfter := { Path := [5, 6], RootHash := 654321 }
  MerkleProofSenderBefore := { Path := [1, 2], RootHash := 123456 }
  MerkleProofSenderAfter := { Path := [1, 2], RootHash := 654321 }
  IndexReceiver := 1
  IndexSender := 0
  RootHashBefore := 123456
  RootHashAfter := 654321

/-- The assignment of `Rollup()` with its transfer signed for `toyGadgets`. -/
def signedAssignment : Circuit :=
  { rollupAssignment with Transfer := toySign rollupAssignment.Transfer }

/-- The assignment of `Rollup()` with the amount raised above the sender's
balance of 100. -/
def overdraftAssignment : Circuit :=
  { signedAssignment with Transfer := toySign { rollupAssignment.Transfer with Amount := 101 } }

/-- The signed assignment with the sender's new nonce left at 1. -/
def staleSenderNonceAssignment : Circuit :=
  { signedAssignment with
    SenderAccountAfter := { signedAssignment.SenderAccountAfter with Nonce := 1 } }

/-- A receiver whose balance is the largest field element receives 1: the
credited balance wraps to 0. -/
def wrapAssignment : Circuit :=
  { signedAssignment with
    ReceiverAccountBefore :=
      { signedAssignment.ReceiverAccountBefore with Balance := fieldModulus - 1 }
    ReceiverAccountAfter := { signedAssignment.ReceiverAccountAfter with Balance := 0 }
    SenderAccountAfter := { signedAssignment.SenderAccountAfter with Balance := 99 }
    Transfer := toySign { rollupAssignment.Transfer with Amount := 1 } }

/-- The signed assignment with the sender's key changed after the transfer. -/
def changedKeyAssignment : Circuit :=
  { signedAssignment with
    SenderAccountAfter := { signedAssignment.SenderAccountAfter with PubKey := ⟨⟨1, 9⟩⟩ } }

/-- The accounts of `Rollup()` with a transfer declared, and signed, under the
keys `(5, 6)` and `(7, 8)`, which are the keys of neither account. -/
def foreignKeyAssignment : Circuit :=
  { signedAssignment with
    Transfer := toySign { rollupAssignment.Transfer with
      SenderPubKey := ⟨⟨5, 6⟩⟩, ReceiverPubKey := ⟨⟨7, 8⟩⟩ } }

/-- The accounts of `Rollup()` with a transfer signed over the nonce 7, while
the sender's nonce before the transfer is 1. -/
def foreignNonceAssignment : Circuit :=
  { signedAssignment with Transfer := toySign { rollupAssignment.Transfer with Nonce := 7 } }

/-- The signed assignment with the two public roots set to 1 and 2, while the
four proofs keep the roots 123456 and 654321. -/
def unlinkedRootsAssignment : Circuit :=
  { signedAssignment with RootHashBefore := 1, RootHashAfter := 2 }

/-- The signed assignment with the receiver's nonce changed from 0 to 5 by
the transfer. -/
def receiverNonceAssignment : Circuit :=
  { signedAssignment with
    ReceiverAccountAfter := { signedAssignment.ReceiverAccountAfter with Nonce := 5 } }

/-- Modelled from the spec: invariants 1 to 7 of the data model (section 3),
on field elements. Invariant 6 is the signature gadget of section 6,
`verify(signature, message, public_key)`, accepting on the curve of
`NewEdCurve` with a hash gadget that has been reset (section 4.2: the hash
gadget is reset before each use). -/
def Circuit.invariants (g : Gadgets) (c : Circuit) : Prop :=
  -- 1. the sender's nonce is incremented, the receiver's is unchanged
  ((c.SenderAccountBefore.Nonce + 1) % fieldModulus = c.SenderAccountAfter.Nonce % fieldModulus ∧
    c.ReceiverAccountAfter.Nonce % fieldModulus
      = c.ReceiverAccountBefore.Nonce % fieldModulus) ∧
  -- 2. 0 <= amount <= sender.before.balance
  (0 ≤ c.Transfer.Amount % fieldModulus ∧
    c.Transfer.Amount % fieldModulus ≤ c.SenderAccountBefore.Balance % fieldModulus) ∧
  -- 3. the sender is debited by amount, the receiver credited by amount
  (c.SenderAccountAfter.Balance % fieldModulus
      = c.SenderAccountBefore.Balance % fieldModulus - c.Transfer.Amount % fieldModulus ∧
    c.ReceiverAccountAfter.Balance % fieldModulus
      = (c.ReceiverAccountBefore.Balance + c.Transfer.Amount) % fieldModulus) ∧
  -- 4. public keys are unchanged
  (c.SenderAccountAfter.PubKey.A.X % fieldModulus
      = c.SenderAccountBefore.PubKey.A.X % fieldModulus ∧
    c.SenderAccountAfter.PubKey.A.Y % fieldModulus
      = c.SenderAccountBefore.PubKey.A.Y % fieldModulus ∧
    c.ReceiverAccountAfter.PubKey.A.X % fieldModulus
      = c.ReceiverAccountBefore.PubKey.A.X % fieldModulus ∧
    c.ReceiverAccountAfter.PubKey.A.Y % fieldModulus
      = c.ReceiverAccountBefore.PubKey.A.Y % fieldModulus) ∧
  -- 5. the declared keys of the transfer are the keys of the accounts
  (c.Transfer.SenderPubKey.A.X % fieldModulus
      = c.SenderAccountBefore.PubKey.A.X % fieldModulus ∧
    c.Transfer.SenderPubKey.A.Y % fieldModulus
      = c.SenderAccountBefore.PubKey.A.Y % fieldModulus ∧
    c.Transfer.ReceiverPubKey.A.X % fieldModulus
      = c.ReceiverAccountBefore.PubKey.A.X % fieldModulus ∧
    c.Transfer.ReceiverPubKey.A.Y % fieldModulus
      = c.ReceiverAccountBefore.PubKey.A.Y % fieldModulus) ∧
  -- 6. the signature gadget accepts the signature over the canonical message
  g.eddsaHolds g.newEdCurve.1 c.Transfer.Signature
      (Hash g [c.Transfer.Nonce, c.Transfer.Amount, c.Transfer.SenderPubKey.A.X,
        c.Transfer.SenderPubKey.A.Y, c.Transfer.ReceiverPubKey.A.X,
        c.Transfer.ReceiverPubKey.A.Y])
      c.Transfer.SenderPubKey
      { h := 0, data := [] } = true ∧
  -- 7. the four Merkle proofs are consistent and linked to the public roots
  (c.MerkleProofSenderBefore.reducesToRoot g c.IndexSender = true ∧
    c.MerkleProofSenderAfter.reducesToRoot g c.IndexSender = true ∧
    c.MerkleProofReceiverBefore.reducesToRoot g c.IndexReceiver = true ∧
    c.MerkleProofReceiverAfter.reducesToRoot g c.IndexReceiver = true ∧
    c.MerkleProofSenderBefore.RootHash % fieldModulus = c.RootHashBefore % fieldModulus ∧
    c.MerkleProofReceiverBefore.RootHash % fieldModulus = c.RootHashBefore % fieldModulus ∧
    c.MerkleProofSenderAfter.RootHash % fieldModulus = c.RootHashAfter % fieldModulus ∧
    c.MerkleProofReceiverAfter.RootHash % fieldModulus = c.RootHashAfter % fieldModulus)

instance (g : Gadgets) (c : Circuit) : Decidable (c.invariants g) := by
  unfold Circuit.invariants
  infer_instance

/-- The root of the two-leaf tree over `toyGadgets` with the sender's leaf at
index 0 and the receiver's leaf at index 1. -/
def toyRoot (senderLeaf receiverLeaf : Nat) : Nat :=
  Hash toyGadgets [Hash toyGadgets [senderLeaf], Hash toyGadgets [receiverLeaf]]

/-- A transfer of amount 0 between the accounts of `Rollup()`: the nonce of
the sender goes from 1 to 2, both balances are unchanged, the transfer is
signed for `toyGadgets`, and the ledger is the two-leaf tree with leaves 11
and 12 before the transfer, 21 and 22 after it. -/
def zeroAmountAssignment : Circuit where
  SenderAccountBefore := { Nonce := 1, Balance := 100, Index := 0, PubKey := ⟨⟨1, 2⟩⟩ }
  ReceiverAccountBefore := { Nonce := 0, Balance := 50, Index := 1, PubKey := ⟨⟨3, 4⟩⟩ }
  SenderAccountAfter := { Nonce := 2, Balance := 100, Index := 0, PubKey := ⟨⟨1, 2⟩⟩ }
  ReceiverAccountAfter := { Nonce := 0, Balance := 50, Index := 1, PubKey := ⟨⟨3, 4⟩⟩ }
  Transfer := toySign { rollupAssignment.Transfer with Amount := 0 }
  MerkleProofSenderBefore :=
    { Path := [11, Hash toyGadgets [12]], RootHash := toyRoot 11 12 }
  MerkleProofReceiverBefore :=
    { Path := [12, Hash toyGadgets [11]], RootHash := toyRoot 11 12 }
  MerkleProofSenderAfter :=
    { Path := [21, Hash toyGadgets [22]], RootHash := toyRoot 21 22 }
  MerkleProofReceiverAfter :=
    { Path := [22, Hash toyGadgets [21]], RootHash := toyRoot 21 22 }
  IndexSender := 0
  IndexReceiver := 1
  RootHashBefore := toyRoot 11 12
  RootHashAfter := toyRoot 21 22

/-- An instance of the gadget contracts whose signature gadget uses the hash
gadget it is handed, as `eddsa.Verify` does: it writes `R.X`, `R.Y`, `A.X`,
`A.Y` and the message to the gadget as handed over, takes the digest, and
accepts when `S` is that digest plus the two coordinates of the key. The
absorption step and the constructors are those of `toyGadgets`. -/
def hasherGadgets : Gadgets :=
  { toyGadgets with
    eddsaHolds := fun _ sig msg pubKey hash =>
      decide (sig.S % fieldModulus
        = ((MiMC.Sum toyGadgets
            (hash.Write [sig.R.X, sig.R.Y, pubKey.A.X, pubKey.A.Y, msg])).1
          + pubKey.A.X + pubKey.A.Y) % fieldModulus) }

/-- The signature a signer outside the circuit produces for `hasherGadgets`:
over the canonical message of the transfer, under the transfer's sender key,
with a hash gadget in its initial state. -/
def hasherSign (t : Transfer) : Transfer :=
  { t with Signature :=
      { R := Point.mk 0 0,
        S := (Hash toyGadgets [0, 0, t.SenderPubKey.A.X, t.SenderPubKey.A.Y,
            Hash toyGadgets [t.Nonce, t.Amount, t.SenderPubKey.A.X, t.SenderPubKey.A.Y,
              t.ReceiverPubKey.A.X, t.ReceiverPubKey.A.Y]]
          + t.SenderPubKey.A.X + t.SenderPubKey.A.Y) % fieldModulus } }

/-- The transfer of amount 0 of `zeroAmountAssignment`, signed by
`hasherSign`. -/
def honestZeroAmountAssignment : Circuit :=
  { zeroAmountAssignment with
    Transfer := hasherSign { rollupAssignment.Transfer with Amount := 0 } }

/-! ## Constructor failures and panics -/

/-- The struct `EquationCircuit`. -/
structure EquationCircuit where
  X : Nat
  Y : Nat
deriving DecidableEq

/-- The method `EquationCircuit.Define`; the variadic `api.Mul(X, X, X)` and
`api.Add(x3, X, 5)` fold their arguments from the left. -/
def EquationCircuit.Define (api : API) (circuit : EquationCircuit) : Option Error × API :=
  let x3 := api.Mul (api.Mul circuit.X circuit.X) circuit.X
  let x3Plus := api.Add (api.Add x3 circuit.X) 5
  let api := api.AssertIsEqual x3Plus circuit.Y
  (none, api)

/-- The assignment built in `Equation()` (source lines 39 to 42). -/
def equationAssignment : EquationCircuit :=
  { X := 3, Y := 35 }

/-! ## Facts about the accumulator -/

theorem fieldModulus_pos : 0 < fieldModulus := by
  unfold fieldModulus; omega

theorem satisfied_AssertIsEqual (g : Gadgets) (api : API) (a b : Nat) :
    (api.AssertIsEqual a b).satisfied g = true ↔
      api.satisfied g = true ∧ a % fieldModulus = b % fieldModulus := by
  simp [API.AssertIsEqual, API.satisfied, Constraint.holds, List.all_append]

theorem satisfied_AssertIsLessOrEqual (g : Gadgets) (api : API) (v bound : Nat) :
    (api.AssertIsLessOrEqual v bound).satisfied g = true ↔
      api.satisfied g = true ∧ v % fieldModulus ≤ bound % fieldModulus := by
  simp [API.AssertIsLessOrEqual, API.satisfied, Constraint.holds, List.all_append]

/-- What the constraints of `verifyUpdated` say, one conjunct per assertion. -/
theorem satisfied_verifyUpdated (g : Gadgets) (api : API)
    (from_ to_ fromUpdated toUpdated : Account) (amount : Nat) :
    (verifyUpdated api from_ to_ fromUpdated toUpdated amount).satisfied g = true ↔
      api.satisfied g = true ∧
      (from_.Nonce + 1) % fieldModulus = fromUpdated.Nonce % fieldModulus ∧
      amount % fieldModulus ≤ from_.Balance % fieldModulus ∧
      (from_.Balance % fieldModulus + (fieldModulus - amount % fieldModulus)) % fieldModulus
        = fromUpdated.Balance % fieldModulus ∧
      (to_.Balance + amount) % fieldModulus = toUpdated.Balance % fieldModulus ∧
      from_.PubKey.A.X % fieldModulus = fromUpdated.PubKey.A.X % fieldModulus ∧
      from_.PubKey.A.Y % fieldModulus = fromUpdated.PubKey.A.Y % fieldModulus ∧
      to_.PubKey.A.X % fieldModulus = toUpdated.PubKey.A.X % fieldModulus ∧
      to_.PubKey.A.Y % fieldModulus = toUpdated.PubKey.A.Y % fieldModulus := by
  simp only [verifyUpdated, satisfied_AssertIsEqual, satisfied_AssertIsLessOrEqual,
    API.Add, API.Sub, Nat.mod_mod, and_assoc]

/-- The accumulator `verifySignature` returns: the one it was given, followed
by the signature gadget's constraint. -/
theorem verifySignature_constraints (g : Gadgets) (api : API) (t : Transfer) (hFunc : MiMC) :
    (verifySignature g api t hFunc).2.constraints =
      api.constraints ++ [Constraint.eddsaVerify g.newEdCurve.1 t.Signature
        (Hash g [t.Nonce, t.Amount, t.SenderPubKey.A.X, t.SenderPubKey.A.Y,
          t.ReceiverPubKey.A.X, t.ReceiverPubKey.A.Y])
        t.SenderPubKey
        { h := Hash g [t.Nonce, t.Amount, t.SenderPubKey.A.X, t.SenderPubKey.A.Y,
            t.ReceiverPubKey.A.X, t.ReceiverPubKey.A.Y], data := [] }] := by
  unfold verifySignature eddsaVerify
  cases h : g.eddsaVerifyError g.newEdCurve.1 <;>
    simp [h, MiMC.Reset, MiMC.Write, MiMC.Sum, Hash]

/-- What the constraints of `Define` say: those of `verifyUpdated`, and the
signature gadget's. -/
theorem satisfied_Define (g : Gadgets) (api : API) (c : Circuit) :
    (Define g api c).2.satisfied g = true ↔
      (verifyUpdated api c.SenderAccountBefore c.ReceiverAccountBefore c.SenderAccountAfter
        c.ReceiverAccountAfter c.Transfer.Amount).satisfied g = true ∧
      g.eddsaHolds g.newEdCurve.1 c.Transfer.Signature
        (Hash g [c.Transfer.Nonce, c.Transfer.Amount, c.Transfer.SenderPubKey.A.X,
          c.Transfer.SenderPubKey.A.Y, c.Transfer.ReceiverPubKey.A.X,
          c.Transfer.ReceiverPubKey.A.Y])
        c.Transfer.SenderPubKey
        { h := Hash g [c.Transfer.Nonce, c.Transfer.Amount, c.Transfer.SenderPubKey.A.X,
            c.Transfer.SenderPubKey.A.Y, c.Transfer.ReceiverPubKey.A.X,
            c.Transfer.ReceiverPubKey.A.Y], data := [] } = true := by
  have hc := verifySignature_constraints g
    (verifyUpdated api c.SenderAccountBefore c.ReceiverAccountBefore c.SenderAccountAfter
      c.ReceiverAccountAfter c.Transfer.Amount) c.Transfer (NewMiMC g).1
  have hd : (Define g api c).2 = (verifySignature g
      (verifyUpdated api c.SenderAccountBefore c.ReceiverAccountBefore c.SenderAccountAfter
        c.ReceiverAccountAfter c.Transfer.Amount) c.Transfer (NewMiMC g).1).2 := by
    unfold Define
    cases h : (verifySignature g
      (verifyUpdated api c.SenderAccountBefore c.ReceiverAccountBefore c.SenderAccountAfter
        c.ReceiverAccountAfter c.Transfer.Amount) c.Transfer (NewMiMC g).1).1 <;>
      simp [h]
  rw [hd]
  simp only [API.satisfied, hc, List.all_append, List.all_cons, List.all_nil, Constraint.holds,
    Bool.and_true, Bool.and_eq_true]

/-! ## The transition validator: `verifyUpdated` -/

/-- C1: overdraft is rejected. When the transfer amount, read as a canonical
integer of the field, is greater than the sender's balance before the
transfer, the constraints emitted by `verifyUpdated` are not all satisfied,
and neither are those emitted by `Define`, whatever the other fields of the
witness and whatever the gadgets accept. -/
theorem overdraft_unsatisfiable (g : Gadgets) (api : API) (c : Circuit)
    (h : c.SenderAccountBefore.Balance % fieldModulus < c.Transfer.Amount % fieldModulus) :
    (verifyUpdated api c.SenderAccountBefore c.ReceiverAccountBefore c.SenderAccountAfter
        c.ReceiverAccountAfter c.Transfer.Amount).satisfied g = false ∧
      (Define g api c).2.satisfied g = false := by
  have hu : (verifyUpdated api c.SenderAccountBefore c.ReceiverAccountBefore
      c.SenderAccountAfter c.ReceiverAccountAfter c.Transfer.Amount).satisfied g = false := by
    rw [Bool.eq_false_iff]
    intro hs
    have hle := ((satisfied_verifyUpdated g api _ _ _ _ _).mp hs).2.2.1
    omega
  refine ⟨hu, ?_⟩
  rw [Bool.eq_false_iff]
  intro hs
  rw [(satisfied_Define g api c).mp hs |>.1] at hu
  exact Bool.noConfusion hu

theorem overdraft_unsatisfiable_witness :
    overdraftAssignment.SenderAccountBefore.Balance % fieldModulus
        < overdraftAssignment.Transfer.Amount % fieldModulus ∧
      (verifyUpdated (API.mk []) overdraftAssignment.SenderAccountBefore
          overdraftAssignment.ReceiverAccountBefore overdraftAssignment.SenderAccountAfter
          overdraftAssignment.ReceiverAccountAfter
          overdraftAssignment.Transfer.Amount).satisfied toyGadgets = false ∧
      (Define toyGadgets (API.mk []) overdraftAssignment).2.satisfied toyGadgets = false :=
  ⟨by decide, overdraft_unsatisfiable toyGadgets (API.mk []) overdraftAssignment (by decide)⟩

/-- C2: the sender's nonce is incremented. A witness whose
`SenderAccountAfter.Nonce` is not `SenderAccountBefore.Nonce + 1` in the field
satisfies neither the constraints of `verifyUpdated` nor those of `Define`;
conversely every witness satisfying either has
`SenderAccountAfter.Nonce = SenderAccountBefore.Nonce + 1` in the field. -/
theorem sender_nonce_incremented (g : Gadgets) (api : API) (c : Circuit) :
    ((c.SenderAccountBefore.Nonce + 1) % fieldModulus
          ≠ c.SenderAccountAfter.Nonce % fieldModulus →
        (verifyUpdated api c.SenderAccountBefore c.ReceiverAccountBefore c.SenderAccountAfter
          c.ReceiverAccountAfter c.Transfer.Amount).satisfied g = false ∧
        (Define g api c).2.satisfied g = false) ∧
      ((verifyUpdated api c.SenderAccountBefore c.ReceiverAccountBefore c.SenderAccountAfter
          c.ReceiverAccountAfter c.Transfer.Amount).satisfied g = true →
        (c.SenderAccountBefore.Nonce + 1) % fieldModulus
          = c.SenderAccountAfter.Nonce % fieldModulus) ∧
      ((Define g api c).2.satisfied g = true →
        (c.SenderAccountBefore.Nonce + 1) % fieldModulus
          = c.SenderAccountAfter.Nonce % fieldModulus) := by
  have hu : (verifyUpdated api c.SenderAccountBefore c.ReceiverAccountBefore
      c.SenderAccountAfter c.ReceiverAccountAfter c.Transfer.Amount).satisfied g = true →
      (c.SenderAccountBefore.Nonce + 1) % fieldModulus
        = c.SenderAccountAfter.Nonce % fieldModulus :=
    fun hs => ((satisfied_verifyUpdated g api _ _ _ _ _).mp hs).2.1
  have hd : (Define g api c).2.satisfied g = true →
      (c.SenderAccountBefore.Nonce + 1) % fieldModulus
        = c.SenderAccountAfter.Nonce % fieldModulus :=
    fun hs => hu ((satisfied_Define g api c).mp hs).1
  refine ⟨fun hne => ⟨?_, ?_⟩, hu, hd⟩
  · rw [Bool.eq_false_iff]; exact fun hs => hne (hu hs)
  · rw [Bool.eq_false_iff]; exact fun hs => hne (hd hs)

theorem sender_nonce_incremented_witness :
    ((verifyUpdated (API.mk []) staleSenderNonceAssignment.SenderAccountBefore
          staleSenderNonceAssignment.ReceiverAccountBefore
          staleSenderNonceAssignment.SenderAccountAfter
          staleSenderNonceAssignment.ReceiverAccountAfter
          staleSenderNonceAssignment.Transfer.Amount).satisfied toyGadgets = false ∧
        (Define toyGadgets (API.mk []) staleSenderNonceAssignment).2.satisfied toyGadgets
          = false) ∧
      (signedAssignment.SenderAccountBefore.Nonce + 1) % fieldModulus
        = signedAssignment.SenderAccountAfter.Nonce % fieldModulus :=
  ⟨(sender_nonce_incremented toyGadgets (API.mk []) staleSenderNonceAssignment).1 (by decide),
    (sender_nonce_incremented toyGadgets (API.mk []) signedAssignment).2.2 (by decide)⟩

/-- C3: the sender is debited exactly. For every witness satisfying the
constraints of `verifyUpdated`, the canonical integers of the balances and the
amount satisfy `SenderAccountAfter.Balance = SenderAccountBefore.Balance -
Transfer.Amount` over the integers, and so
`0 <= SenderAccountAfter.Balance <= SenderAccountBefore.Balance`. -/
theorem sender_debited_exactly (g : Gadgets) (api : API) (c : Circuit)
    (h : (verifyUpdated api c.SenderAccountBefore c.ReceiverAccountBefore c.SenderAccountAfter
      c.ReceiverAccountAfter c.Transfer.Amount).satisfied g = true) :
    ((c.SenderAccountAfter.Balance % fieldModulus : Nat) : Int)
        = ((c.SenderAccountBefore.Balance % fieldModulus : Nat) : Int)
          - ((c.Transfer.Amount % fieldModulus : Nat) : Int) ∧
      (0 : Int) ≤ ((c.SenderAccountAfter.Balance % fieldModulus : Nat) : Int) ∧
      c.SenderAccountAfter.Balance % fieldModulus
        ≤ c.SenderAccountBefore.Balance % fieldModulus := by
  obtain ⟨-, -, hle, hsub, -⟩ := (satisfied_verifyUpdated g api _ _ _ _ _).mp h
  have hb : c.SenderAccountBefore.Balance % fieldModulus < fieldModulus :=
    Nat.mod_lt _ fieldModulus_pos
  have hpos := fieldModulus_pos
  generalize c.SenderAccountBefore.Balance % fieldModulus = x at *
  generalize c.Transfer.Amount % fieldModulus = y at *
  generalize c.SenderAccountAfter.Balance % fieldModulus = z at *
  have hxy : x + (fieldModulus - y) = (x - y) + fieldModulus := by omega
  rw [hxy, Nat.add_mod_right, Nat.mod_eq_of_lt (by omega)] at hsub
  omega

theorem sender_debited_exactly_witness :
    ((signedAssignment.SenderAccountAfter.Balance % fieldModulus : Nat) : Int)
        = ((signedAssignment.SenderAccountBefore.Balance % fieldModulus : Nat) : Int)
          - ((signedAssignment.Transfer.Amount % fieldModulus : Nat) : Int) ∧
      (0 : Int) ≤ ((signedAssignment.SenderAccountAfter.Balance % fieldModulus : Nat) : Int) ∧
      signedAssignment.SenderAccountAfter.Balance % fieldModulus
        ≤ signedAssignment.SenderAccountBefore.Balance % fieldModulus :=
  sender_debited_exactly toyGadgets (API.mk []) signedAssignment (by decide)

/-- C4, counterexample: with the receiver's balance at `fieldModulus - 1` and
an amount of 1, the witness `wrapAssignment` satisfies every constraint of
`verifyUpdated` (and of `Define`), while the receiver's balance after the
transfer, 0, is not the integer sum of the balance before and the amount. -/
theorem receiver_credit_wraps :
    (verifyUpdated (API.mk []) wrapAssignment.SenderAccountBefore
        wrapAssignment.ReceiverAccountBefore wrapAssignment.SenderAccountAfter
        wrapAssignment.ReceiverAccountAfter wrapAssignment.Transfer.Amount).satisfied toyGadgets
        = true ∧
      (Define toyGadgets (API.mk []) wrapAssignment).2.satisfied toyGadgets = true ∧
      wrapAssignment.ReceiverAccountAfter.Balance % fieldModulus
        ≠ wrapAssignment.ReceiverAccountBefore.Balance % fieldModulus
          + wrapAssignment.Transfer.Amount % fieldModulus := by
  decide

/-- C4, amended: the receiver is credited in the field. For every witness
satisfying the constraints of `verifyUpdated`, the canonical integer of
`ReceiverAccountAfter.Balance` is the sum of those of
`ReceiverAccountBefore.Balance` and `Transfer.Amount` reduced modulo the field
order: it is the integer sum when that sum is below the field order, and the
integer sum less the field order otherwise. -/
theorem receiver_credited_in_field (g : Gadgets) (api : API) (c : Circuit)
    (h : (verifyUpdated api c.SenderAccountBefore c.ReceiverAccountBefore c.SenderAccountAfter
      c.ReceiverAccountAfter c.Transfer.Amount).satisfied g = true) :
    c.ReceiverAccountAfter.Balance % fieldModulus
        = (c.ReceiverAccountBefore.Balance % fieldModulus
            + c.Transfer.Amount % fieldModulus) % fieldModulus ∧
      (c.ReceiverAccountBefore.Balance % fieldModulus + c.Transfer.Amount % fieldModulus
          < fieldModulus →
        c.ReceiverAccountAfter.Balance % fieldModulus
          = c.ReceiverAccountBefore.Balance % fieldModulus
            + c.Transfer.Amount % fieldModulus) ∧
      (fieldModulus ≤ c.ReceiverAccountBefore.Balance % fieldModulus
          + c.Transfer.Amount % fieldModulus →
        c.ReceiverAccountAfter.Balance % fieldModulus + fieldModulus
          = c.ReceiverAccountBefore.Balance % fieldModulus
            + c.Transfer.Amount % fieldModulus) := by
  obtain ⟨-, -, -, -, hadd, -⟩ := (satisfied_verifyUpdated g api _ _ _ _ _).mp h
  rw [Nat.add_mod] at hadd
  have hx : c.ReceiverAccountBefore.Balance % fieldModulus < fieldModulus :=
    Nat.mod_lt _ fieldModulus_pos
  have hy : c.Transfer.Amount % fieldModulus < fieldModulus := Nat.mod_lt _ fieldModulus_pos
  generalize c.ReceiverAccountBefore.Balance % fieldModulus = x at *
  generalize c.Transfer.Amount % fieldModulus = y at *
  generalize c.ReceiverAccountAfter.Balance % fieldModulus = z at *
  refine ⟨hadd.symm, fun hlt => ?_, fun hge => ?_⟩
  · rw [Nat.mod_eq_of_lt hlt] at hadd; exact hadd.symm
  · have hsplit : x + y = (x + y - fieldModulus) + fieldModulus := by omega
    rw [hsplit, Nat.add_mod_right, Nat.mod_eq_of_lt (by omega)] at hadd
    omega

theorem receiver_credited_in_field_witness :
    wrapAssignment.ReceiverAccountAfter.Balance % fieldModulus
        = (wrapAssignment.ReceiverAccountBefore.Balance % fieldModulus
            + wrapAssignment.Transfer.Amount % fieldModulus) % fieldModulus ∧
      (wrapAssignment.ReceiverAccountBefore.Balance % fieldModulus
          + wrapAssignment.Transfer.Amount % fieldModulus < fieldModulus →
        wrapAssignment.ReceiverAccountAfter.Balance % fieldModulus
          = wrapAssignment.ReceiverAccountBefore.Balance % fieldModulus
            + wrapAssignment.Transfer.Amount % fieldModulus) ∧
      (fieldModulus ≤ wrapAssignment.ReceiverAccountBefore.Balance % fieldModulus
          + wrapAssignment.Transfer.Amount % fieldModulus →
        wrapAssignment.ReceiverAccountAfter.Balance % fieldModulus + fieldModulus
          = wrapAssignment.ReceiverAccountBefore.Balance % fieldModulus
            + wrapAssignment.Transfer.Amount % fieldModulus) :=
  receiver_credited_in_field toyGadgets (API.mk []) wrapAssignment (by decide)

/-- C5: public keys are immutable. A witness in which a coordinate of
`SenderAccountAfter.PubKey` or of `ReceiverAccountAfter.PubKey` differs, in the
field, from the same coordinate before the transfer satisfies neither the
constraints of `verifyUpdated` nor those of `Define`, whatever its other
fields; every witness satisfying `verifyUpdated` has the four coordinates
unchanged. -/
theorem pubkeys_immutable (g : Gadgets) (api : API) (c : Circuit) :
    (c.SenderAccountAfter.PubKey.A.X % fieldModulus
            ≠ c.SenderAccountBefore.PubKey.A.X % fieldModulus ∨
          c.SenderAccountAfter.PubKey.A.Y % fieldModulus
            ≠ c.SenderAccountBefore.PubKey.A.Y % fieldModulus ∨
          c.ReceiverAccountAfter.PubKey.A.X % fieldModulus
            ≠ c.ReceiverAccountBefore.PubKey.A.X % fieldModulus ∨
          c.ReceiverAccountAfter.PubKey.A.Y % fieldModulus
            ≠ c.ReceiverAccountBefore.PubKey.A.Y % fieldModulus →
        (verifyUpdated api c.SenderAccountBefore c.ReceiverAccountBefore c.SenderAccountAfter
          c.ReceiverAccountAfter c.Transfer.Amount).satisfied g = false ∧
        (Define g api c).2.satisfied g = false) ∧
      ((verifyUpdated api c.SenderAccountBefore c.ReceiverAccountBefore c.SenderAccountAfter
          c.ReceiverAccountAfter c.Transfer.Amount).satisfied g = true →
        c.SenderAccountAfter.PubKey.A.X % fieldModulus
            = c.SenderAccountBefore.PubKey.A.X % fieldModulus ∧
          c.SenderAccountAfter.PubKey.A.Y % fieldModulus
            = c.SenderAccountBefore.PubKey.A.Y % fieldModulus ∧
          c.ReceiverAccountAfter.PubKey.A.X % fieldModulus
            = c.ReceiverAccountBefore.PubKey.A.X % fieldModulus ∧
          c.ReceiverAccountAfter.PubKey.A.Y % fieldModulus
            = c.ReceiverAccountBefore.PubKey.A.Y % fieldModulus) := by
  have hu : (verifyUpdated api c.SenderAccountBefore c.ReceiverAccountBefore
      c.SenderAccountAfter c.ReceiverAccountAfter c.Transfer.Amount).satisfied g = true →
      c.SenderAccountAfter.PubKey.A.X % fieldModulus
          = c.SenderAccountBefore.PubKey.A.X % fieldModulus ∧
        c.SenderAccountAfter.PubKey.A.Y % fieldModulus
          = c.SenderAccountBefore.PubKey.A.Y % fieldModulus ∧
        c.ReceiverAccountAfter.PubKey.A.X % fieldModulus
          = c.ReceiverAccountBefore.PubKey.A.X % fieldModulus ∧
        c.ReceiverAccountAfter.PubKey.A.Y % fieldModulus
          = c.ReceiverAccountBefore.PubKey.A.Y % fieldModulus := by
    intro hs
    obtain ⟨-, -, -, -, -, h1, h2, h3, h4⟩ := (satisfied_verifyUpdated g api _ _ _ _ _).mp hs
    exact ⟨h1.symm, h2.symm, h3.symm, h4.symm⟩
  have hno : ∀ hne : c.SenderAccountAfter.PubKey.A.X % fieldModulus
            ≠ c.SenderAccountBefore.PubKey.A.X % fieldModulus ∨
          c.SenderAccountAfter.PubKey.A.Y % fieldModulus
            ≠ c.SenderAccountBefore.PubKey.A.Y % fieldModulus ∨
          c.ReceiverAccountAfter.PubKey.A.X % fieldModulus
            ≠ c.ReceiverAccountBefore.PubKey.A.X % fieldModulus ∨
          c.ReceiverAccountAfter.PubKey.A.Y % fieldModulus
            ≠ c.ReceiverAccountBefore.PubKey.A.Y % fieldModulus,
      ¬ (verifyUpdated api c.SenderAccountBefore c.ReceiverAccountBefore
        c.SenderAccountAfter c.ReceiverAccountAfter c.Transfer.Amount).satisfied g = true := by
    intro hne hs
    obtain ⟨h1, h2, h3, h4⟩ := hu hs
    rcases hne with h | h | h | h
    · exact h h1
    · exact h h2
    · exact h h3
    · exact h h4
  refine ⟨fun hne => ⟨?_, ?_⟩, hu⟩
  · rw [Bool.eq_false_iff]; exact hno hne
  · rw [Bool.eq_false_iff]; exact fun hs => hno hne ((satisfied_Define g api c).mp hs).1

theorem pubkeys_immutable_witness :
    ((verifyUpdated (API.mk []) changedKeyAssignment.SenderAccountBefore
          changedKeyAssignment.ReceiverAccountBefore changedKeyAssignment.SenderAccountAfter
          changedKeyAssignment.ReceiverAccountAfter
          changedKeyAssignment.Transfer.Amount).satisfied toyGadgets = false ∧
        (Define toyGadgets (API.mk []) changedKeyAssignment).2.satisfied toyGadgets = false) ∧
      (signedAssignment.SenderAccountAfter.PubKey.A.X % fieldModulus
          = signedAssignment.SenderAccountBefore.PubKey.A.X % fieldModulus ∧
        signedAssignment.SenderAccountAfter.PubKey.A.Y % fieldModulus
          = signedAssignment.SenderAccountBefore.PubKey.A.Y % fieldModulus ∧
        signedAssignment.ReceiverAccountAfter.PubKey.A.X % fieldModulus
          = signedAssignment.ReceiverAccountBefore.PubKey.A.X % fieldModulus ∧
        signedAssignment.ReceiverAccountAfter.PubKey.A.Y % fieldModulus
          = signedAssignment.ReceiverAccountBefore.PubKey.A.Y % fieldModulus) :=
  ⟨(pubkeys_immutable toyGadgets (API.mk []) changedKeyAssignment).1
      (Or.inr (Or.inl (by decide))),
    (pubkeys_immutable toyGadgets (API.mk []) signedAssignment).2 (by decide)⟩

/-! ## The orchestrator: `Define` -/

/-- C6, counterexample: the witness `foreignKeyAssignment` satisfies every
constraint emitted by `Define`, its signature being accepted under the
transfer's declared sender key `(5, 6)`, while the debited account's key is
`(1, 2)` and the credited account's key is `(3, 4)`, not the declared
receiver key `(7, 8)`. -/
theorem transfer_keys_not_bound :
    (Define toyGadgets (API.mk []) foreignKeyAssignment).2.satisfied toyGadgets = true ∧
      foreignKeyAssignment.Transfer.SenderPubKey.A.X % fieldModulus
        ≠ foreignKeyAssignment.SenderAccountBefore.PubKey.A.X % fieldModulus ∧
      foreignKeyAssignment.Transfer.SenderPubKey.A.Y % fieldModulus
        ≠ foreignKeyAssignment.SenderAccountBefore.PubKey.A.Y % fieldModulus ∧
      foreignKeyAssignment.Transfer.ReceiverPubKey.A.X % fieldModulus
        ≠ foreignKeyAssignment.ReceiverAccountBefore.PubKey.A.X % fieldModulus ∧
      foreignKeyAssignment.Transfer.ReceiverPubKey.A.Y % fieldModulus
        ≠ foreignKeyAssignment.ReceiverAccountBefore.PubKey.A.Y % fieldModulus := by
  decide

/-- C6, amended: for every witness satisfying all constraints emitted by
`Define`, the signature gadget accepts `Transfer.Signature` over the hash of
the transfer under `Transfer.SenderPubKey`, the key the transfer itself
declares; `Define` relates neither `Transfer.SenderPubKey` nor
`Transfer.ReceiverPubKey` to the keys of the accounts: the witness still
satisfies the constraints when the sender account's key and the receiver
account's key (before and after alike) are replaced by any other keys. -/
theorem signature_verified_under_transfer_key (g : Gadgets) (api : API) (c : Circuit)
    (h : (Define g api c).2.satisfied g = true) :
    g.eddsaHolds g.newEdCurve.1 c.Transfer.Signature
        (Hash g [c.Transfer.Nonce, c.Transfer.Amount, c.Transfer.SenderPubKey.A.X,
          c.Transfer.SenderPubKey.A.Y, c.Transfer.ReceiverPubKey.A.X,
          c.Transfer.ReceiverPubKey.A.Y])
        c.Transfer.SenderPubKey
        { h := Hash g [c.Transfer.Nonce, c.Transfer.Amount, c.Transfer.SenderPubKey.A.X,
            c.Transfer.SenderPubKey.A.Y, c.Transfer.ReceiverPubKey.A.X,
            c.Transfer.ReceiverPubKey.A.Y], data := [] } = true ∧
      ∀ senderKey receiverKey : PublicKey,
        (Define g api { c with
          SenderAccountBefore := { c.SenderAccountBefore with PubKey := senderKey }
          SenderAccountAfter := { c.SenderAccountAfter with PubKey := senderKey }
          ReceiverAccountBefore := { c.ReceiverAccountBefore with PubKey := receiverKey }
          ReceiverAccountAfter := { c.ReceiverAccountAfter with PubKey := receiverKey }
          }).2.satisfied g = true := by
  obtain ⟨hu, hsig⟩ := (satisfied_Define g api c).mp h
  refine ⟨hsig, fun senderKey receiverKey => ?_⟩
  rw [satisfied_Define]
  refine ⟨?_, hsig⟩
  obtain ⟨h0, h1, h2, h3, h4, -⟩ := (satisfied_verifyUpdated g api _ _ _ _ _).mp hu
  exact (satisfied_verifyUpdated g api _ _ _ _ _).mpr ⟨h0, h1, h2, h3, h4, rfl, rfl, rfl, rfl⟩

theorem signature_verified_under_transfer_key_witness :
    toyGadgets.eddsaHolds toyGadgets.newEdCurve.1 foreignKeyAssignment.Transfer.Signature
        (Hash toyGadgets [foreignKeyAssignment.Transfer.Nonce,
          foreignKeyAssignment.Transfer.Amount,
          foreignKeyAssignment.Transfer.SenderPubKey.A.X,
          foreignKeyAssignment.Transfer.SenderPubKey.A.Y,
          foreignKeyAssignment.Transfer.ReceiverPubKey.A.X,
          foreignKeyAssignment.Transfer.ReceiverPubKey.A.Y])
        foreignKeyAssignment.Transfer.SenderPubKey
        { h := Hash toyGadgets [foreignKeyAssignment.Transfer.Nonce,
            foreignKeyAssignment.Transfer.Amount,
            foreignKeyAssignment.Transfer.SenderPubKey.A.X,
            foreignKeyAssignment.Transfer.SenderPubKey.A.Y,
            foreignKeyAssignment.Transfer.ReceiverPubKey.A.X,
            foreignKeyAssignment.Transfer.ReceiverPubKey.A.Y], data := [] } = true ∧
      ∀ senderKey receiverKey : PublicKey,
        (Define toyGadgets (API.mk []) { foreignKeyAssignment with
          SenderAccountBefore :=
            { foreignKeyAssignment.SenderAccountBefore with PubKey := senderKey }
          SenderAccountAfter :=
            { foreignKeyAssignment.SenderAccountAfter with PubKey := senderKey }
          ReceiverAccountBefore :=
            { foreignKeyAssignment.ReceiverAccountBefore with PubKey := receiverKey }
          ReceiverAccountAfter :=
            { foreignKeyAssignment.ReceiverAccountAfter with PubKey := receiverKey }
          }).2.satisfied toyGadgets = true :=
  signature_verified_under_transfer_key toyGadgets (API.mk []) foreignKeyAssignment (by decide)

/-- C7, counterexample: the witness `foreignNonceAssignment` satisfies every
constraint emitted by `Define` with `Transfer.Nonce = 7`, while
`SenderAccountBefore.Nonce = 1`. -/
theorem transfer_nonce_not_bound :
    (Define toyGadgets (API.mk []) foreignNonceAssignment).2.satisfied toyGadgets = true ∧
      foreignNonceAssignment.Transfer.Nonce % fieldModulus
        ≠ foreignNonceAssignment.SenderAccountBefore.Nonce % fieldModulus := by
  decide

/-- C7, amended: for every witness satisfying all constraints emitted by
`Define`, `SenderAccountAfter.Nonce = SenderAccountBefore.Nonce + 1` in the
field and `Transfer.Nonce` is the first value of the message the signature is
accepted over; `Define` does not relate `Transfer.Nonce` to the sender's
nonce: the witness still satisfies the constraints when the sender's nonces
before and after are replaced by any `n` and `n + 1`. -/
theorem signed_nonce_is_transfer_nonce (g : Gadgets) (api : API) (c : Circuit)
    (h : (Define g api c).2.satisfied g = true) :
    (c.SenderAccountBefore.Nonce + 1) % fieldModulus
        = c.SenderAccountAfter.Nonce % fieldModulus ∧
      g.eddsaHolds g.newEdCurve.1 c.Transfer.Signature
        (Hash g [c.Transfer.Nonce, c.Transfer.Amount, c.Transfer.SenderPubKey.A.X,
          c.Transfer.SenderPubKey.A.Y, c.Transfer.ReceiverPubKey.A.X,
          c.Transfer.ReceiverPubKey.A.Y])
        c.Transfer.SenderPubKey
        { h := Hash g [c.Transfer.Nonce, c.Transfer.Amount, c.Transfer.SenderPubKey.A.X,
            c.Transfer.SenderPubKey.A.Y, c.Transfer.ReceiverPubKey.A.X,
            c.Transfer.ReceiverPubKey.A.Y], data := [] } = true ∧
      ∀ n : Nat,
        (Define g api { c with
          SenderAccountBefore := { c.SenderAccountBefore with Nonce := n }
          SenderAccountAfter := { c.SenderAccountAfter with Nonce := n + 1 }
          }).2.satisfied g = true := by
  obtain ⟨hu, hsig⟩ := (satisfied_Define g api c).mp h
  obtain ⟨h0, h1, h2, h3, h4, h5, h6, h7, h8⟩ :=
    (satisfied_verifyUpdated g api _ _ _ _ _).mp hu
  refine ⟨h1, hsig, fun n => ?_⟩
  rw [satisfied_Define]
  exact ⟨(satisfied_verifyUpdated g api _ _ _ _ _).mpr ⟨h0, rfl, h2, h3, h4, h5, h6, h7, h8⟩,
    hsig⟩

theorem signed_nonce_is_transfer_nonce_witness :
    (foreignNonceAssignment.SenderAccountBefore.Nonce + 1) % fieldModulus
        = foreignNonceAssignment.SenderAccountAfter.Nonce % fieldModulus ∧
      toyGadgets.eddsaHolds toyGadgets.newEdCurve.1 foreignNonceAssignment.Transfer.Signature
        (Hash toyGadgets [foreignNonceAssignment.Transfer.Nonce,
          foreignNonceAssignment.Transfer.Amount,
          foreignNonceAssignment.Transfer.SenderPubKey.A.X,
          foreignNonceAssignment.Transfer.SenderPubKey.A.Y,
          foreignNonceAssignment.Transfer.ReceiverPubKey.A.X,
          foreignNonceAssignment.Transfer.ReceiverPubKey.A.Y])
        foreignNonceAssignment.Transfer.SenderPubKey
        { h := Hash toyGadgets [foreignNonceAssignment.Transfer.Nonce,
            foreignNonceAssignment.Transfer.Amount,
            foreignNonceAssignment.Transfer.SenderPubKey.A.X,
            foreignNonceAssignment.Transfer.SenderPubKey.A.Y,
            foreignNonceAssignment.Transfer.ReceiverPubKey.A.X,
            foreignNonceAssignment.Transfer.ReceiverPubKey.A.Y], data := [] } = true ∧
      ∀ n : Nat,
        (Define toyGadgets (API.mk []) { foreignNonceAssignment with
          SenderAccountBefore := { foreignNonceAssignment.SenderAccountBefore with Nonce := n }
          SenderAccountAfter := { foreignNonceAssignment.SenderAccountAfter with Nonce := n + 1 }
          }).2.satisfied toyGadgets = true :=
  signed_nonce_is_transfer_nonce toyGadgets (API.mk []) foreignNonceAssignment (by decide)

/-- C8, the code at a failing input: the witness `unlinkedRootsAssignment`
satisfies every constraint emitted by `Define`, while its four Merkle proofs
claim the roots 123456 (before) and 654321 (after) and its public roots are 1
and 2. The four assertions that would link them are commented out in
`Define`. -/
theorem roots_not_linked :
    (Define toyGadgets (API.mk []) unlinkedRootsAssignment).2.satisfied toyGadgets = true ∧
      unlinkedRootsAssignment.MerkleProofSenderBefore.RootHash % fieldModulus
        ≠ unlinkedRootsAssignment.RootHashBefore % fieldModulus ∧
      unlinkedRootsAssignment.MerkleProofReceiverBefore.RootHash % fieldModulus
        ≠ unlinkedRootsAssignment.RootHashBefore % fieldModulus ∧
      unlinkedRootsAssignment.MerkleProofSenderAfter.RootHash % fieldModulus
        ≠ unlinkedRootsAssignment.RootHashAfter % fieldModulus ∧
      unlinkedRootsAssignment.MerkleProofReceiverAfter.RootHash % fieldModulus
        ≠ unlinkedRootsAssignment.RootHashAfter % fieldModulus := by
  decide

/-- With the four root assertions commented out, `Define` reads neither the
public `RootHashBefore` and `RootHashAfter` nor the `RootHash` of any of the
four Merkle proofs: its error and its constraints are the same whatever these
six values are, for every instance of the gadgets. -/
theorem roots_unconstrained (g : Gadgets) (api : API) (c : Circuit)
    (rootBefore rootAfter senderBefore senderAfter receiverBefore receiverAfter : Nat) :
    Define g api { c with
      RootHashBefore := rootBefore
      RootHashAfter := rootAfter
      MerkleProofSenderBefore := { c.MerkleProofSenderBefore with RootHash := senderBefore }
      MerkleProofSenderAfter := { c.MerkleProofSenderAfter with RootHash := senderAfter }
      MerkleProofReceiverBefore :=
        { c.MerkleProofReceiverBefore with RootHash := receiverBefore }
      MerkleProofReceiverAfter := { c.MerkleProofReceiverAfter with RootHash := receiverAfter }
      } = Define g api c := by
  rfl

/-- C9, the code at a failing input: the witness `signedAssignment` (the
assignment of `Rollup()`, signed) satisfies every constraint emitted by
`Define`, while none of its four Merkle proofs recomputes to its claimed root
at the given index; and it still satisfies them after the path element 2 of
the sender's proof is changed to 3, or the sender's index from 0 to 1. The
four `VerifyProof` calls are commented out in `Define`. -/
theorem merkle_membership_not_enforced :
    (Define toyGadgets (API.mk []) signedAssignment).2.satisfied toyGadgets = true ∧
      signedAssignment.MerkleProofSenderBefore.reducesToRoot toyGadgets
        signedAssignment.IndexSender = false ∧
      signedAssignment.MerkleProofSenderAfter.reducesToRoot toyGadgets
        signedAssignment.IndexSender = false ∧
      signedAssignment.MerkleProofReceiverBefore.reducesToRoot toyGadgets
        signedAssignment.IndexReceiver = false ∧
      signedAssignment.MerkleProofReceiverAfter.reducesToRoot toyGadgets
        signedAssignment.IndexReceiver = false ∧
      (Define toyGadgets (API.mk []) { signedAssignment with
        MerkleProofSenderBefore := { Path := [1, 3], RootHash := 123456 }
        }).2.satisfied toyGadgets = true ∧
      (Define toyGadgets (API.mk []) { signedAssignment with
        IndexSender := 1 }).2.satisfied toyGadgets = true := by
  decide

/-- With the four `VerifyProof` calls commented out, `Define` reads neither
the `Path` of any of the four Merkle proofs nor `IndexSender` and
`IndexReceiver`: its error and its constraints are the same whatever the four
paths and the two indices are, for every instance of the gadgets. -/
theorem merkle_paths_unconstrained (g : Gadgets) (api : API) (c : Circuit)
    (senderBefore senderAfter receiverBefore receiverAfter : List Nat)
    (indexSender indexReceiver : Nat) :
    Define g api { c with
      MerkleProofSenderBefore := { c.MerkleProofSenderBefore with Path := senderBefore }
      MerkleProofSenderAfter := { c.MerkleProofSenderAfter with Path := senderAfter }
      MerkleProofReceiverBefore := { c.MerkleProofReceiverBefore with Path := receiverBefore }
      MerkleProofReceiverAfter := { c.MerkleProofReceiverAfter with Path := receiverAfter }
      IndexSender := indexSender
      IndexReceiver := indexReceiver
      } = Define g api c := by
  rfl

/-! ## The authenticity verifier: `verifySignature` -/

/-- C10: the canonical signed message. Whatever state the hash gadget is
handed over in, `verifySignature` returns the signature gadget's error and
adds exactly one constraint, the signature gadget's, invoked with
`Transfer.Signature` as signature, `Transfer.SenderPubKey` as public key and,
as message, the digest of the six values `Nonce`, `Amount`, `SenderPubKey.A.X`,
`SenderPubKey.A.Y`, `ReceiverPubKey.A.X`, `ReceiverPubKey.A.Y`; that digest is
the one a reset gadget computes by absorbing the six values in this order. -/
theorem verifySignature_canonical_message (g : Gadgets) (api : API) (t : Transfer)
    (hFunc : MiMC) :
    verifySignature g api t hFunc =
        (g.eddsaVerifyError g.newEdCurve.1,
          { constraints := api.constraints ++ [Constraint.eddsaVerify g.newEdCurve.1 t.Signature
            (Hash g [t.Nonce, t.Amount, t.SenderPubKey.A.X, t.SenderPubKey.A.Y,
              t.ReceiverPubKey.A.X, t.ReceiverPubKey.A.Y])
            t.SenderPubKey
            { h := Hash g [t.Nonce, t.Amount, t.SenderPubKey.A.X, t.SenderPubKey.A.Y,
                t.ReceiverPubKey.A.X, t.ReceiverPubKey.A.Y], data := [] }] }) ∧
      Hash g [t.Nonce, t.Amount, t.SenderPubKey.A.X, t.SenderPubKey.A.Y,
          t.ReceiverPubKey.A.X, t.ReceiverPubKey.A.Y]
        = g.compress (g.compress (g.compress (g.compress (g.compress (g.compress 0 t.Nonce)
            t.Amount) t.SenderPubKey.A.X) t.SenderPubKey.A.Y) t.ReceiverPubKey.A.X)
            t.ReceiverPubKey.A.Y ∧
      ((hFunc.Reset.Write [t.Nonce, t.Amount, t.SenderPubKey.A.X, t.SenderPubKey.A.Y,
          t.ReceiverPubKey.A.X, t.ReceiverPubKey.A.Y]).Sum g).1
        = Hash g [t.Nonce, t.Amount, t.SenderPubKey.A.X, t.SenderPubKey.A.Y,
          t.ReceiverPubKey.A.X, t.ReceiverPubKey.A.Y] := by
  refine ⟨?_, rfl, rfl⟩
  unfold verifySignature eddsaVerify
  cases h : g.eddsaVerifyError g.newEdCurve.1 <;>
    simp [h, MiMC.Reset, MiMC.Write, MiMC.Sum, Hash]

/-! ## Errors of `Define` -/

/-- C11: structural-error propagation. `Define` returns exactly what the
signature gadget `eddsa.Verify`, called through `verifySignature`, returns:
an error if and only if the gadget returns one, and then that same error, and
`nil` when the gadget reports none. The value does not depend on the witness,
so an overdraft, a wrong nonce or a changed key never makes `Define` return an
error. -/
theorem Define_returns_signature_gadget_error (g : Gadgets) (api : API) (c : Circuit) :
    (Define g api c).1 = g.eddsaVerifyError g.newEdCurve.1 ∧
      (∀ e : Error, (Define g api c).1 = some e ↔ g.eddsaVerifyError g.newEdCurve.1 = some e) ∧
      ((Define g api c).1 = none ↔ g.eddsaVerifyError g.newEdCurve.1 = none) ∧
      ∀ c2 : Circuit, (Define g api c2).1 = (Define g api c).1 := by
  have hd : ∀ w : Circuit, (Define g api w).1 = g.eddsaVerifyError g.newEdCurve.1 := by
    intro w
    unfold Define verifySignature eddsaVerify
    cases h : g.eddsaVerifyError g.newEdCurve.1 <;> simp [h]
  refine ⟨hd c, fun e => ?_, ?_, fun c2 => ?_⟩
  · rw [hd c]
  · rw [hd c]
  · rw [hd c2, hd c]

/-! ## The hash gadget in `verifySignature` -/

/-- The first half of C16: `verifySignature` resets the hash gadget before it
absorbs the transfer, so two gadgets that differ in what they absorbed before
give the same error, the same message and the same constraints. -/
theorem verifySignature_ignores_prior_state (g : Gadgets) (api : API) (t : Transfer)
    (hFunc1 hFunc2 : MiMC) :
    verifySignature g api t hFunc1 = verifySignature g api t hFunc2 := by
  rfl

/-- C16, the code at a failing input: for the transfer of `Rollup()` and a
fresh hash gadget, the gadget that `verifySignature` hands to `eddsa.Verify`
is not in the cleared state: its `h` holds the message digest 56366591, since
`Sum` keeps the state and no second `Reset` precedes the call. -/
theorem hash_gadget_not_cleared_for_eddsa :
    (verifySignature toyGadgets (API.mk []) rollupAssignment.Transfer
        (NewMiMC toyGadgets).1).2.constraints
        = [Constraint.eddsaVerify (Curve.mk 0) rollupAssignment.Transfer.Signature 56366591
            rollupAssignment.Transfer.SenderPubKey { h := 56366591, data := [] }] ∧
      Hash toyGadgets [1, 30, 1, 2, 3, 4] = 56366591 ∧
      ({ h := 56366591, data := [] } : MiMC) ≠ MiMC.Reset { h := 56366591, data := [] } := by
  decide

/-! ## The reference scenario -/

/-- C13: the reference scenario. With the accounts of `Rollup()` (sender
`{nonce 1, balance 100, key (1, 2)}` to `{nonce 2, balance 70}`, receiver
`{nonce 0, balance 50, key (3, 4)}` to `{nonce 0, balance 80}`) and amount 30,
every constraint emitted by `verifyUpdated` holds; with amount 31 and the same
accounts they do not all hold. -/
theorem reference_scenario (g : Gadgets) :
    (verifyUpdated (API.mk [])
        { Nonce := 1, Balance := 100, Index := 0, PubKey := ⟨⟨1, 2⟩⟩ }
        { Nonce := 0, Balance := 50, Index := 1, PubKey := ⟨⟨3, 4⟩⟩ }
        { Nonce := 2, Balance := 70, Index := 0, PubKey := ⟨⟨1, 2⟩⟩ }
        { Nonce := 0, Balance := 80, Index := 1, PubKey := ⟨⟨3, 4⟩⟩ }
        30).satisfied g = true ∧
      (verifyUpdated (API.mk [])
        { Nonce := 1, Balance := 100, Index := 0, PubKey := ⟨⟨1, 2⟩⟩ }
        { Nonce := 0, Balance := 50, Index := 1, PubKey := ⟨⟨3, 4⟩⟩ }
        { Nonce := 2, Balance := 70, Index := 0, PubKey := ⟨⟨1, 2⟩⟩ }
        { Nonce := 0, Balance := 80, Index := 1, PubKey := ⟨⟨3, 4⟩⟩ }
        31).satisfied g = false ∧
      rollupAssignment.SenderAccountBefore
        = { Nonce := 1, Balance := 100, Index := 0, PubKey := ⟨⟨1, 2⟩⟩ } ∧
      rollupAssignment.ReceiverAccountBefore
        = { Nonce := 0, Balance := 50, Index := 1, PubKey := ⟨⟨3, 4⟩⟩ } ∧
      rollupAssignment.SenderAccountAfter
        = { Nonce := 2, Balance := 70, Index := 0, PubKey := ⟨⟨1, 2⟩⟩ } ∧
      rollupAssignment.ReceiverAccountAfter
        = { Nonce := 0, Balance := 80, Index := 1, PubKey := ⟨⟨3, 4⟩⟩ } ∧
      rollupAssignment.Transfer.Amount = 30 := by
  refine ⟨?_, ?_, rfl, rfl, rfl, rfl, rfl⟩
  · rw [satisfied_verifyUpdated]
    exact ⟨rfl, by decide, by decide, by decide, by decide, rfl, rfl, rfl, rfl⟩
  · rw [Bool.eq_false_iff, Ne, satisfied_verifyUpdated]
    exact fun h => absurd h.2.2.2.1 (by decide)

/-! ## The receiver's nonce and conservation -/

/-- C14, counterexample: the witness `receiverNonceAssignment` satisfies every
constraint emitted by `Define`, while the receiver's nonce is 0 before the
transfer and 5 after it. -/
theorem receiver_nonce_not_constrained :
    (Define toyGadgets (API.mk []) receiverNonceAssignment).2.satisfied toyGadgets = true ∧
      receiverNonceAssignment.ReceiverAccountAfter.Nonce % fieldModulus
        ≠ receiverNonceAssignment.ReceiverAccountBefore.Nonce % fieldModulus := by
  decide

/-- C14, amended: `Define` emits no constraint on the receiver's nonce. For
every witness satisfying all constraints emitted by `Define`, the witness
with `ReceiverAccountBefore.Nonce` and `ReceiverAccountAfter.Nonce` replaced
by any two values satisfies them too; only the sender's nonce is
constrained, to `SenderAccountBefore.Nonce + 1`. -/
theorem receiver_nonce_free (g : Gadgets) (api : API) (c : Circuit)
    (h : (Define g api c).2.satisfied g = true) :
    (c.SenderAccountBefore.Nonce + 1) % fieldModulus
        = c.SenderAccountAfter.Nonce % fieldModulus ∧
      ∀ nonceBefore nonceAfter : Nat,
        (Define g api { c with
          ReceiverAccountBefore := { c.ReceiverAccountBefore with Nonce := nonceBefore }
          ReceiverAccountAfter := { c.ReceiverAccountAfter with Nonce := nonceAfter }
          }).2.satisfied g = true := by
  refine ⟨((satisfied_verifyUpdated g api _ _ _ _ _).mp
    ((satisfied_Define g api c).mp h).1).2.1, fun nonceBefore nonceAfter => ?_⟩
  exact h

theorem receiver_nonce_free_witness :
    (signedAssignment.SenderAccountBefore.Nonce + 1) % fieldModulus
        = signedAssignment.SenderAccountAfter.Nonce % fieldModulus ∧
      ∀ nonceBefore nonceAfter : Nat,
        (Define toyGadgets (API.mk []) { signedAssignment with
          ReceiverAccountBefore :=
            { signedAssignment.ReceiverAccountBefore with Nonce := nonceBefore }
          ReceiverAccountAfter :=
            { signedAssignment.ReceiverAccountAfter with Nonce := nonceAfter }
          }).2.satisfied toyGadgets = true :=
  receiver_nonce_free toyGadgets (API.mk []) signedAssignment (by decide)

/-- C17: the total balance is conserved. For every witness satisfying the
constraints of `verifyUpdated`, the balances of sender and receiver after the
transfer add up, in the field, to what they add up to before it, for every
amount. -/
theorem total_balance_conserved (g : Gadgets) (api : API) (c : Circuit)
    (h : (verifyUpdated api c.SenderAccountBefore c.ReceiverAccountBefore c.SenderAccountAfter
      c.ReceiverAccountAfter c.Transfer.Amount).satisfied g = true) :
    (c.SenderAccountAfter.Balance + c.ReceiverAccountAfter.Balance) % fieldModulus
      = (c.SenderAccountBefore.Balance + c.ReceiverAccountBefore.Balance) % fieldModulus := by
  obtain ⟨-, -, hle, hsub, hadd, -⟩ := (satisfied_verifyUpdated g api _ _ _ _ _).mp h
  unfold fieldModulus at *
  omega

theorem total_balance_conserved_witness :
    (wrapAssignment.SenderAccountAfter.Balance + wrapAssignment.ReceiverAccountAfter.Balance)
        % fieldModulus
      = (wrapAssignment.SenderAccountBefore.Balance
          + wrapAssignment.ReceiverAccountBefore.Balance) % fieldModulus :=
  total_balance_conserved toyGadgets (API.mk []) wrapAssignment (by decide)

/-! ## The equation circuit: `EquationCircuit.Define` -/

/-- C18: the equation circuit encodes `f(x) = x^3 + x + 5`. For all `X` and
`Y`, the constraint emitted by `EquationCircuit.Define` holds if and only if
`Y = X*X*X + X + 5` in the BN254 scalar field; `Define` always returns `nil`;
and `X = 3`, `Y = 35` satisfies the constraint. -/
theorem equation_circuit_encodes_cubic (g : Gadgets) (c : EquationCircuit) :
    ((EquationCircuit.Define (API.mk []) c).2.satisfied g = true ↔
        c.Y % fieldModulus = (c.X * c.X * c.X + c.X + 5) % fieldModulus) ∧
      (EquationCircuit.Define (API.mk []) c).2.constraints.length = 1 ∧
      (∀ api : API, (EquationCircuit.Define api c).1 = none) ∧
      (EquationCircuit.Define (API.mk []) { X := 3, Y := 35 }).2.satisfied g = true := by
  have key : ∀ w : EquationCircuit,
      ((EquationCircuit.Define (API.mk []) w).2.satisfied g = true ↔
        w.Y % fieldModulus = (w.X * w.X * w.X + w.X + 5) % fieldModulus) := by
    intro w
    simp only [EquationCircuit.Define, satisfied_AssertIsEqual, API.Add, API.Mul, Nat.mod_mod,
      Nat.mod_add_mod, Nat.mod_mul_mod]
    simp only [API.satisfied, List.all_nil, true_and]
    exact eq_comm
  refine ⟨key c, rfl, fun _ => rfl, ?_⟩
  rw [key]
  decide

/-! ## Completeness and the hash gadget handed to `eddsa.Verify` -/

/-- Invariants 1 to 4 of the data model give every constraint emitted by
`verifyUpdated`, for every instance of the gadgets: the transition part of
completeness holds. -/
theorem verifyUpdated_complete (g : Gadgets) (api : API) (c : Circuit)
    (hapi : api.satisfied g = true) (h : c.invariants g) :
    (verifyUpdated api c.SenderAccountBefore c.ReceiverAccountBefore c.SenderAccountAfter
      c.ReceiverAccountAfter c.Transfer.Amount).satisfied g = true := by
  obtain ⟨⟨hn, -⟩, ⟨-, hle⟩, ⟨hdebit, hcredit⟩, ⟨k1, k2, k3, k4⟩, -⟩ := h
  refine (satisfied_verifyUpdated g api _ _ _ _ _).mpr
    ⟨hapi, hn, hle, ?_, hcredit.symm, k1.symm, k2.symm, k3.symm, k4.symm⟩
  have hb : c.SenderAccountBefore.Balance % fieldModulus < fieldModulus :=
    Nat.mod_lt _ fieldModulus_pos
  rw [hdebit]
  generalize c.SenderAccountBefore.Balance % fieldModulus = x at *
  generalize c.Transfer.Amount % fieldModulus = y at *
  have hxy : x + (fieldModulus - y) = (x - y) + fieldModulus := by omega
  rw [hxy, Nat.add_mod_right, Nat.mod_eq_of_lt (by omega)]

/-- C12, the code at a failing input: the witness `honestZeroAmountAssignment`
(amount 0, balances unchanged, the sender's nonce incremented, keys unchanged
and equal to the transfer's, Merkle proofs consistent and linked, and a
signature the gadget accepts over the canonical message with a reset hash
gadget) satisfies invariants 1 to 7, and every constraint of `verifyUpdated`,
but not every constraint emitted by `Define`: `verifySignature` hands the hash
gadget to `eddsa.Verify` without a second `Reset`, still holding the message
digest, and with it the gadget rejects the signature. -/
theorem honest_signature_rejected :
    honestZeroAmountAssignment.invariants hasherGadgets ∧
      honestZeroAmountAssignment.Transfer.Amount = 0 ∧
      honestZeroAmountAssignment.SenderAccountAfter.Balance
        = honestZeroAmountAssignment.SenderAccountBefore.Balance ∧
      honestZeroAmountAssignment.ReceiverAccountAfter.Balance
        = honestZeroAmountAssignment.ReceiverAccountBefore.Balance ∧
      (verifyUpdated (API.mk []) honestZeroAmountAssignment.SenderAccountBefore
        honestZeroAmountAssignment.ReceiverAccountBefore
        honestZeroAmountAssignment.SenderAccountAfter
        honestZeroAmountAssignment.ReceiverAccountAfter
        honestZeroAmountAssignment.Transfer.Amount).satisfied hasherGadgets = true ∧
      (Define hasherGadgets (API.mk []) honestZeroAmountAssignment).2.satisfied hasherGadgets
        = false := by
  decide

/-! ## Errors of the constructors -/

end Rollup
